import Mathlib

set_option maxRecDepth 40000

/-!
Verification development for the pyArbTools waveform / PDW library
(`pyArbTools/pyArbTools.py`).

The Python source is shallowly embedded as follows:

* Python floats are modelled as exact rationals (`ℚ`); decimal literals
  such as `0.005` become the rationals they denote (`5/1000`).
* Python's arbitrary-precision integers are `ℤ`.  `int(x)` on a float
  truncates toward zero (`pyInt`); `x << n` is `x * 2^n`; `x >> n` is
  floor division, which on nonnegative divisors is Lean's `/` on `ℤ`;
  `x & m` and `x | m` are two's-complement bitwise operations, which is
  exactly `Int.land` / `Int.lor`.
* numpy stores into a `dtype=np.uint32` array wrap modulo `2^32`
  (`uint32store`); stores of floats into `np.int16` / `np.int8` arrays
  truncate toward zero and wrap in two's complement (`wrapSigned`),
  and shifts on those arrays wrap the same way.
* `raise` / normal return is modelled by the sum type `PyResult`;
  Python strings are `List Char`; `dict` literals keyed by strings are
  association lists looked up by `pyDictGet` (a missed key is a
  `KeyError`).
* `int.to_bytes(n, byteorder='little')` is `toBytesLE`, and joining a
  numpy `uint32` array into a bytes object serialises each word
  little-endian.
-/

/-- Python exceptions raised by the embedded fragment of the library. -/
inductive PyErr : Type
  /-- `AwgError`/`VsgError` for a too-short waveform, carrying the actual
  and the required length (the f-string interpolates both). -/
  | lengthError (actual required : ℕ)
  /-- `AwgError`/`VsgError` for a length that is not a multiple of the
  granularity, carrying the granularity. -/
  | granularityError (gran : ℕ)
  /-- `AwgError('Invalid resolution selected.')`. -/
  | invalidResolution
  /-- `ValueError` (bad `int()` parse, or an unmapped modulation symbol). -/
  | valueError
  /-- `KeyError` (missing `dict` key). -/
  | keyError
deriving DecidableEq, Repr

/-- Result of a Python call: a value, or an uncaught exception. -/
inductive PyResult (α : Type) : Type
  | ok (val : α)
  | error (e : PyErr)
deriving DecidableEq, Repr

/-- Python `int(x)` applied to a float/rational: truncation toward zero. -/
def pyInt (q : ℚ) : ℤ :=
  if 0 ≤ q then ⌊q⌋ else ⌈q⌉

/-- Store of an integer into a numpy signed integer array of bit width `w`
(`np.int8` has `w = 8`, `np.int16` has `w = 16`): two's-complement
wraparound into `[-2^(w-1), 2^(w-1))`. -/
def wrapSigned (w : ℕ) (z : ℤ) : ℤ :=
  (z + 2 ^ (w - 1)) % 2 ^ w - 2 ^ (w - 1)

/-- Store of a Python integer into a numpy `dtype=np.uint32` array:
wraparound modulo `2^32`. -/
def uint32store (z : ℤ) : ℤ :=
  z % 4294967296

/-- Python `value.to_bytes(numBytes, byteorder='little')`. -/
def toBytesLE (numBytes value : ℕ) : List ℕ :=
  (List.range numBytes).map fun i => value / 256 ^ i % 256

/-- Lookup in a Python `dict` literal, modelled as an association list. -/
def pyDictGet {κ α : Type} [DecidableEq κ] : List (κ × α) → κ → Option α
  | [], _ => none
  | (k, v) :: t, key => if k = key then some v else pyDictGet t key

/-!
Waveform validation.  `M8190A.check_wfm`, `M8195A.check_wfm`,
`VSG.check_wfm` and `UXG.check_wfm` all begin with the same two
fail-fast checks (source lines 67-71, 215-219, 347-352, 602-606):

    rl = len(wfm)
    if rl < self.minLen:
        raise ...(f'Waveform length: {rl}, must be at least {self.minLen}.')
    if rl % self.gran != 0:
        raise ...(f'Waveform must have a granularity of {self.gran}.')
-/

/-- Shared validation performed at the top of every `check_wfm`:
first the minimum-length check, then the granularity check. -/
def validate_wfm (minLen gran rl : ℕ) : PyResult Unit :=
  if rl < minLen then .error (.lengthError rl minLen)
  else if rl % gran ≠ 0 then .error (.granularityError gran)
  else .ok ()

/-- Quantization step of `M8190A.check_wfm` / `VSG.check_wfm` for one
sample (`np.array(binMult * wfm, dtype=np.int16) << binShift`): the
float product truncates toward zero into `int16`, then the left shift
wraps in `int16` again. -/
def quantInt16 (binMult binShift : ℕ) (s : ℚ) : ℤ :=
  wrapSigned 16 (wrapSigned 16 (pyInt ((binMult : ℚ) * s)) * 2 ^ binShift)

/-- Quantization step of `M8195A.check_wfm` for one sample
(`np.array(binMult * wfm, dtype=np.int8) << binShift`). -/
def quantInt8 (binMult binShift : ℕ) (s : ℚ) : ℤ :=
  wrapSigned 8 (wrapSigned 8 (pyInt ((binMult : ℚ) * s)) * 2 ^ binShift)

/-- Mutable attributes of an `M8190A` object that `check_resolution` and
`check_wfm` read or write.  `intFactor` and `idleGran` are only ever set
by the interpolated (`intx`) branch, so they are `Option`s: `none` models
an attribute that has not been assigned yet. -/
structure M8190AState : Type where
  res : List Char
  gran : ℕ
  minLen : ℕ
  binMult : ℕ
  binShift : ℕ
  intFactor : Option ℤ
  idleGran : Option ℕ
deriving DecidableEq, Repr

/-- Python `pattern in s` for strings: `pat` occurs as a contiguous
substring of `s` (used for `'intx' in self.res`). -/
def strContains (pat : List Char) (s : List Char) : Bool :=
  List.isPrefixOf pat s ||
    match s with
    | [] => false
    | _ :: t => strContains pat t

/-- Python `s.split(sep)` for a single-character separator. -/
def splitOnChar (sep : Char) : List Char → List (List Char)
  | [] => [[]]
  | c :: t =>
    let r := splitOnChar sep t
    if c = sep then [] :: r
    else
      match r with
      | [] => [[c]]
      | h :: r' => (c :: h) :: r'

/-- Python `int(s)` on a string of decimal digits (`None` models the
`ValueError` raised on anything that does not parse; the factors used by
the library are plain nonnegative digit strings). -/
def parseIntChars (l : List Char) : Option ℤ :=
  if l = [] then none
  else
    (l.foldl (fun acc c =>
      acc.bind fun a =>
        if '0' ≤ c ∧ c ≤ '9' then some (10 * a + ((c.toNat : ℤ) - 48)) else none)
      (some 0))

/-- `M8190A.check_resolution` (source lines 130-158).  Reads `self.res`
and mutates the dependent constants; an unknown resolution raises
`AwgError`.  In the `intx` branch the four base constants are assigned
first, then `intFactor = int(self.res.split('x')[-1])` (whose parse
failure raises `ValueError`), and `idleGran` is assigned only when the
factor is 3, 12, 24 or 48 — any other factor leaves `idleGran` untouched
and raises nothing. -/
def check_resolution (st : M8190AState) : PyResult M8190AState :=
  if st.res = ['w', 'p', 'r'] then
    .ok { st with gran := 48, minLen := 240, binMult := 8191, binShift := 2 }
  else if st.res = ['w', 's', 'p'] then
    .ok { st with gran := 64, minLen := 320, binMult := 2047, binShift := 4 }
  else if strContains ['i', 'n', 't', 'x'] st.res then
    match parseIntChars ((splitOnChar 'x' st.res).getLastD []) with
    | none => .error .valueError
    | some f =>
      .ok { st with gran := 24, minLen := 120, binMult := 16383, binShift := 1,
                    intFactor := some f,
                    idleGran :=
                      if f = 3 then some 8
                      else if f = 12 then some 2
                      else if f = 24 ∨ f = 48 then some 1
                      else st.idleGran }
  else
    .error .invalidResolution

/-- `M8190A.check_wfm` (source lines 58-73): runs `check_resolution`
first, then the two shared validation checks, then quantizes every
sample into `int16`. -/
def M8190A.check_wfm (st : M8190AState) (wfm : List ℚ) : PyResult (List ℤ) :=
  match check_resolution st with
  | .error e => .error e
  | .ok st' =>
    match validate_wfm st'.minLen st'.gran wfm.length with
    | .error e => .error e
    | .ok _ => .ok (wfm.map (quantInt16 st'.binMult st'.binShift))

/-- `M8195A.check_wfm` (source lines 208-221) with the constants fixed in
`M8195A.__init__`: `gran = 256`, `minLen = 256`, `binMult = 127`,
`binShift = 0`, stored as `int8`. -/
def M8195A.check_wfm (wfm : List ℚ) : PyResult (List ℤ) :=
  match validate_wfm 256 256 wfm.length with
  | .error e => .error e
  | .ok _ => .ok (wfm.map (quantInt8 127 0))

/-- `VSG.check_wfm` (source lines 339-357) with the constants fixed in
`VSG.__init__`: `gran = 2`, `minLen = 60`, `binMult = 32767`, stored as
`int16` with no shift (the final `byteswap()` reorders bytes on the wire
and does not change the stored sample values). -/
def VSG.check_wfm (wfm : List ℚ) : PyResult (List ℤ) :=
  match validate_wfm 60 2 wfm.length with
  | .error e => .error e
  | .ok _ => .ok (wfm.map (quantInt16 32767 0))

/-!
UXG PDW encoding (`UXG.bin_pdw_builder`, source lines 423-453).
-/

/-- Scaled frequency: `_freq = int(freq * 1024 + 0.5)`. -/
def scaledFreq (freq : ℚ) : ℤ :=
  pyInt (freq * 1024 + 1 / 2)

/-- Scaled phase: `_phase = int(phase * 4096 / 360 + 0.5)`. -/
def scaledPhase (phase : ℚ) : ℤ :=
  pyInt (phase * 4096 / 360 + 1 / 2)

/-- Scaled start time in picoseconds: `_startTimePs = int(startTimeSec * 1e12)`
(note: no `+ 0.5` — plain truncation). -/
def scaledStartPs (startTimeSec : ℚ) : ℤ :=
  pyInt (startTimeSec * 1000000000000)

/-- Scaled power: `_power = int((power + 140) / 0.005 + 0.5)`. -/
def scaledPower (power : ℚ) : ℤ :=
  pyInt ((power + 140) / (5 / 1000) + 1 / 2)

/-- Word assembly of `UXG.bin_pdw_builder` from the already-scaled integer
fields, mirroring the six stores into the `dtype=np.uint32` array
(`pdwFormat = 1`; words 0-3 carry the source's explicit `& 0xFFFFFFFF`
masks, words 4-5 rely on the `uint32` store alone). -/
def pdwWords (operation _freq _phase _startTimePs _power markers
    phaseControl rfOff wIndex wfmMkrMask : ℤ) : List ℤ :=
  [ uint32store (Int.land (Int.lor (Int.lor 1 (operation * 2 ^ 3)) (_freq * 2 ^ 5)) 0xFFFFFFFF),
    uint32store (Int.land (Int.lor (_freq / 2 ^ 27) (_phase * 2 ^ 20)) 0xFFFFFFFF),
    uint32store (Int.land _startTimePs 0xFFFFFFFF),
    uint32store (Int.land _startTimePs 0xFFFFFFFF00000000 / 2 ^ 32),
    uint32store (Int.lor (Int.lor (Int.lor _power (markers * 2 ^ 15)) (phaseControl * 2 ^ 27)) (rfOff * 2 ^ 28)),
    uint32store (Int.lor (Int.lor wIndex (0 * 2 ^ 16)) (wfmMkrMask * 2 ^ 28)) ]

/-- `UXG.bin_pdw_builder(operation, freq, phase, startTimeSec, power,
markers, phaseControl, rfOff, wIndex, wfmMkrMask)`: scales the physical
fields to fixed point, then packs six 32-bit words. -/
def bin_pdw_builder (operation : ℤ) (freq phase startTimeSec power : ℚ)
    (markers phaseControl rfOff wIndex wfmMkrMask : ℤ) : List ℤ :=
  pdwWords operation (scaledFreq freq) (scaledPhase phase)
    (scaledStartPs startTimeSec) (scaledPower power)
    markers phaseControl rfOff wIndex wfmMkrMask

/-- One pulse descriptor: the ten positional arguments of
`bin_pdw_builder` (an inner list of `pdwList`). -/
structure PulseDescriptor : Type where
  operation : ℤ
  freq : ℚ
  phase : ℚ
  startTimeSec : ℚ
  power : ℚ
  markers : ℤ
  phaseControl : ℤ
  rfOff : ℤ
  wIndex : ℤ
  wfmMkrMask : ℤ

/-- `self.bin_pdw_builder(*p)` for a descriptor `p`. -/
def binPdwOf (p : PulseDescriptor) : List ℤ :=
  bin_pdw_builder p.operation p.freq p.phase p.startTimeSec p.power
    p.markers p.phaseControl p.rfOff p.wIndex p.wfmMkrMask

/-- Serialisation of one encoded PDW record: the six `uint32` words of
the numpy array, each little-endian (24 bytes). -/
def pdwBytes (p : PulseDescriptor) : List ℕ :=
  (binPdwOf p).flatMap fun w => toBytesLE 4 w.toNat

/-- Header section of `UXG.bin_pdw_file_builder` (source lines 466-477):
`b'STRM'`, version 1, offset `(1 << 1) & 0x3fffff`, `b'KEYS'`, 16
reserved bytes, flags, uniqueId, dataId 64, 4 reserved bytes. -/
def pdwFileHeader : List ℕ :=
  [0x53, 0x54, 0x52, 0x4D] ++ toBytesLE 4 1 ++
    toBytesLE 4 ((1 <<< 1) &&& 0x3fffff) ++ [0x4B, 0x45, 0x59, 0x53] ++
    toBytesLE 16 0 ++ toBytesLE 4 0 ++ toBytesLE 4 0 ++ toBytesLE 4 64 ++
    toBytesLE 4 0

/-- Padding block (source lines 479-485): block id 1, 4 reserved bytes,
size 4016 as 8 bytes, then 4016 bytes of zero padding. -/
def pdwFilePadding : List ℕ :=
  toBytesLE 4 1 ++ toBytesLE 4 0 ++ toBytesLE 8 4016 ++ toBytesLE 4016 0

/-- PDW block header (source lines 487-491): block id 16, 4 reserved
bytes, and the unbounded sentinel size `0xffffffffffffffff` as 8 bytes. -/
def pdwFileBlockHeader : List ℕ :=
  toBytesLE 4 16 ++ toBytesLE 4 0 ++ toBytesLE 8 0xffffffffffffffff

/-- `UXG.bin_pdw_file_builder(pdwList)` (source lines 455-502): the fixed
header, the padding block, the PDW block header, then every encoded
record, joined into one byte string (the write to a hardcoded local path
is a side effect outside the returned value). -/
def bin_pdw_file_builder (pdwList : List PulseDescriptor) : List ℕ :=
  pdwFileHeader ++ pdwFilePadding ++ pdwFileBlockHeader ++
    pdwList.flatMap pdwBytes

/-!
Barker generator (`barker_generator`, source lines 647-672).  The
samples are `exp(1j * mod)` with `mod = pi/2 * chip`; we model each
sample by its phase expressed in units of `π`, i.e. by the coefficient
`(1/2) * chip`, which is what the claims about phases speak about.
`zeroLast` defaults to `False` and is not modelled.
-/

/-- The fixed Barker-code catalog (source lines 651-655). -/
def barkerCodes : List (List Char × List ℤ) :=
  [ (['b', '2'], [1, -1]),
    (['b', '3'], [1, 1, -1]),
    (['b', '4', '1'], [1, 1, -1, 1]),
    (['b', '4', '2'], [1, 1, 1, -1]),
    (['b', '5'], [1, 1, 1, -1, 1]),
    (['b', '7'], [1, 1, 1, -1, -1, 1, -1]),
    (['b', '1', '1'], [1, 1, 1, -1, -1, -1, 1, -1, -1, 1, -1]),
    (['b', '1', '3'], [1, 1, 1, 1, 1, -1, -1, 1, 1, -1, 1, -1, 1]) ]

/-- `codeSamples = int(length / len(barkerCodes[code]) * fs)` — note the
truncating `int()`. -/
def barkerCodeSamples (length fs : ℚ) (numChips : ℕ) : ℕ :=
  (pyInt (length / (numChips : ℚ) * fs)).toNat

/-- `barker_generator(length, fs, code)`, returning the phase (in units
of `π`) of every sample: each chip `p` is replicated `codeSamples` times
with phase coefficient `(1/2) * p` (from `mod = np.pi / 2 * barker`).
A code name missing from the catalog raises `KeyError`. -/
def barker_generator (length fs : ℚ) (code : List Char) : PyResult (List ℚ) :=
  match pyDictGet barkerCodes code with
  | none => .error .keyError
  | some chips =>
    .ok (chips.flatMap fun p =>
      List.replicate (barkerCodeSamples length fs chips.length) ((1 / 2 : ℚ) * (p : ℚ)))

/-!
Constellation modulators (source lines 721-853).  A bit list is turned
into symbol strings (`str(d0)+str(d1)+...`), grouped by the stride-`k`
`zip`, and looked up in a string-keyed map.  `zip(data[0::k], ...,
data[k-1::k])` produces exactly `⌊n/k⌋` tuples, tuple `i` being
`(data[k*i], ..., data[k*i+k-1])`; `chunksN` reproduces that.  A missed
lookup is a `KeyError`, re-raised as `ValueError`.  Only the default
maps are modelled (`customMap=None`).
-/

/-- Python `str(d)` for a bit: `0 ↦ '0'`, `1 ↦ '1'`; any other integer
turns into some other character, never equal to `'0'`/`'1'`, which can
match no key of the default maps — `'?'` stands for all of those. -/
def bitChar (d : ℤ) : Char :=
  if d = 0 then '0' else if d = 1 then '1' else '?'

/-- The complete groups of `k` successive elements, dropping a trailing
incomplete group: the semantics of `zip(data[0::k], ..., data[k-1::k])`. -/
def chunksN {α : Type} (k : ℕ) (l : List α) : List (List α) :=
  (List.range (l.length / k)).map fun i => (l.drop (i * k)).take k

/-- Map every symbol string through a constellation map; the first
missing key raises (list comprehension + `KeyError` → `ValueError`). -/
def mapSymbols (m : List (List Char × (ℚ × ℚ))) : List (List Char) → PyResult (List (ℚ × ℚ))
  | [] => .ok []
  | g :: t =>
    match pyDictGet m g with
    | none => .error .valueError
    | some v =>
      match mapSymbols m t with
      | .error e => .error e
      | .ok rest => .ok (v :: rest)

/-- Default QPSK map (source line 758). -/
def qpskMap : List (List Char × (ℚ × ℚ)) :=
  [ (['0', '0'], (1, 1)), (['0', '1'], (-1, 1)),
    (['1', '0'], (-1, -1)), (['1', '1'], (1, -1)) ]

/-- Default 8-PSK map (source lines 782-785), `0.707` read as the exact
rational it denotes. -/
def psk8Map : List (List Char × (ℚ × ℚ)) :=
  [ (['0', '0', '0'], (1, 0)), (['0', '0', '1'], (707 / 1000, 707 / 1000)),
    (['0', '1', '0'], (0, 1)), (['0', '1', '1'], (-707 / 1000, 707 / 1000)),
    (['1', '0', '0'], (-1, 0)), (['1', '0', '1'], (-707 / 1000, -707 / 1000)),
    (['1', '1', '0'], (0, -1)), (['1', '1', '1'], (707 / 1000, -707 / 1000)) ]

/-- Default 16-QAM map (source lines 813-818). -/
def qam16Map : List (List Char × (ℚ × ℚ)) :=
  [ (['0', '0', '0', '0'], (-3, -3)), (['0', '0', '0', '1'], (-3, -1)),
    (['0', '0', '1', '0'], (-3, 3)), (['0', '0', '1', '1'], (-3, 1)),
    (['0', '1', '0', '0'], (-1, -3)), (['0', '1', '0', '1'], (-1, -1)),
    (['0', '1', '1', '0'], (-1, 3)), (['0', '1', '1', '1'], (-1, 1)),
    (['1', '0', '0', '0'], (3, -3)), (['1', '0', '0', '1'], (3, -1)),
    (['1', '0', '1', '0'], (3, 3)), (['1', '0', '1', '1'], (3, 1)),
    (['1', '1', '0', '0'], (1, -3)), (['1', '1', '0', '1'], (1, -1)),
    (['1', '1', '1', '0'], (1, 3)), (['1', '1', '1', '1'], (1, 1)) ]

/-- Default map of `qam32_modulator` (source lines 844-849): textually
identical to the 16-QAM map — sixteen 4-character keys, not thirty-two
5-character ones. -/
def qam32Map : List (List Char × (ℚ × ℚ)) :=
  [ (['0', '0', '0', '0'], (-3, -3)), (['0', '0', '0', '1'], (-3, -1)),
    (['0', '0', '1', '0'], (-3, 3)), (['0', '0', '1', '1'], (-3, 1)),
    (['0', '1', '0', '0'], (-1, -3)), (['0', '1', '0', '1'], (-1, -1)),
    (['0', '1', '1', '0'], (-1, 3)), (['0', '1', '1', '1'], (-1, 1)),
    (['1', '0', '0', '0'], (3, -3)), (['1', '0', '0', '1'], (3, -1)),
    (['1', '0', '1', '0'], (3, 3)), (['1', '0', '1', '1'], (3, 1)),
    (['1', '1', '0', '0'], (1, -3)), (['1', '1', '0', '1'], (1, -1)),
    (['1', '1', '1', '0'], (1, 3)), (['1', '1', '1', '1'], (1, 1)) ]

/-- `qpsk_modulator(data)` with the default map (source lines 743-763). -/
def qpsk_modulator (data : List ℤ) : PyResult (List (ℚ × ℚ)) :=
  mapSymbols qpskMap (chunksN 2 (data.map bitChar))

/-- `psk8_modulator(data)` with the default map (source lines 766-790). -/
def psk8_modulator (data : List ℤ) : PyResult (List (ℚ × ℚ)) :=
  mapSymbols psk8Map (chunksN 3 (data.map bitChar))

/-- `qam16_modulator(data)` with the default map (source lines 793-822). -/
def qam16_modulator (data : List ℤ) : PyResult (List (ℚ × ℚ)) :=
  mapSymbols qam16Map (chunksN 4 (data.map bitChar))

/-- `qam32_modulator(data)` with the default map (source lines 825-853):
5-bit symbol strings looked up in the 4-character-keyed default map. -/
def qam32_modulator (data : List ℤ) : PyResult (List (ℚ × ℚ)) :=
  mapSymbols qam32Map (chunksN 5 (data.map bitChar))

/-- Squared Euclidean distance between two constellation points. -/
def sqDist (p q : ℚ × ℚ) : ℚ :=
  (p.1 - q.1) ^ 2 + (p.2 - q.2) ^ 2

/-- Number of positions at which two symbol strings differ. -/
def hammingChars (a b : List Char) : ℕ :=
  (List.zipWith (fun x y => if x = y then 0 else 1) a b).sum

/-!
Helper lemmas.
-/

/-- Evaluation rule for `pyInt` on a nonnegative rational. -/
theorem pyInt_of_nonneg {q : ℚ} {z : ℤ} (h0 : 0 ≤ q) (h1 : (z : ℚ) ≤ q) (h2 : q < z + 1) :
    pyInt q = z := by
  rw [pyInt, if_pos h0]
  exact Int.floor_eq_iff.mpr ⟨h1, by exact_mod_cast h2⟩

/-- Evaluation rule for `pyInt` on a negative rational. -/
theorem pyInt_of_neg {q : ℚ} {z : ℤ} (h0 : ¬ 0 ≤ q) (h1 : (z : ℚ) - 1 < q) (h2 : q ≤ z) :
    pyInt q = z := by
  rw [pyInt, if_neg h0]
  exact Int.ceil_eq_iff.mpr ⟨by exact_mod_cast h1, h2⟩

/-- On nonnegative operands, `pyInt` of `x + 1/2` is rounding half-up,
which is exactly Mathlib's `round`. -/
theorem pyInt_add_half (q : ℚ) (h : 0 ≤ q) : pyInt (q + 1 / 2) = round q := by
  rw [pyInt, if_pos (by linarith), round_eq]

@[simp, norm_cast]
theorem intLor_natCast (m n : ℕ) : Int.lor (m : ℤ) (n : ℤ) = ((m ||| n : ℕ) : ℤ) := rfl

@[simp, norm_cast]
theorem intLand_natCast (m n : ℕ) : Int.land (m : ℤ) (n : ℤ) = ((m &&& n : ℕ) : ℤ) := rfl

/-- Bitwise `or` of a multiple of `2^k` with a value below `2^k` is addition. -/
theorem lor_pow_add {k b : ℕ} (h : b < 2 ^ k) (a : ℕ) : a * 2 ^ k ||| b = a * 2 ^ k + b := by
  rw [mul_comm]
  exact (Nat.mul_add_lt_is_or h a).symm

/-- Commuted version of `lor_pow_add`. -/
theorem lor_pow_add' {k b : ℕ} (h : b < 2 ^ k) (a : ℕ) : b ||| a * 2 ^ k = a * 2 ^ k + b := by
  rw [Nat.lor_comm]
  exact lor_pow_add h a

/-- Masking with the high 32-of-64-bit mask keeps exactly bits 32-63. -/
theorem and_high_mask (s : ℕ) : s &&& 0xFFFFFFFF00000000 = s / 2 ^ 32 % 2 ^ 32 * 2 ^ 32 := by
  have h1 : (0xFFFFFFFF00000000 : ℕ) = (2 ^ 32 - 1) <<< 32 := by norm_num [Nat.shiftLeft_eq]
  have h2 : s / 2 ^ 32 % 2 ^ 32 * 2 ^ 32 = (s >>> 32 % 2 ^ 32) <<< 32 := by
    rw [Nat.shiftLeft_eq, Nat.shiftRight_eq_div_pow]
  rw [h1, h2]
  apply Nat.eq_of_testBit_eq
  intro i
  simp only [Nat.testBit_and, Nat.testBit_shiftLeft, Nat.testBit_two_pow_sub_one,
    Nat.testBit_mod_two_pow, Nat.testBit_shiftRight, ge_iff_le]
  rcases lt_or_ge i 32 with h | h
  · simp [Nat.not_le.mpr h]
  · have h32 : 32 + (i - 32) = i := by omega
    simp [h, h32, Bool.and_comm]

/-- Word 0 of the PDW: format tag, operation, low 27 bits of frequency. -/
theorem word0_eval (a f : ℕ) (ha : a < 2 ^ 2) :
    uint32store (Int.land (Int.lor (Int.lor 1 ((a : ℤ) * 2 ^ 3)) ((f : ℤ) * 2 ^ 5)) 0xFFFFFFFF) =
      1 + 2 ^ 3 * (a : ℤ) + 2 ^ 5 * ((f : ℤ) % 2 ^ 27) := by
  have hnat : ((1 ||| a * 2 ^ 3 ||| f * 2 ^ 5) &&& 0xFFFFFFFF) % 4294967296 =
      1 + 2 ^ 3 * a + 2 ^ 5 * (f % 2 ^ 27) := by
    have h1 : (1 : ℕ) ||| a * 2 ^ 3 = a * 2 ^ 3 + 1 := lor_pow_add' (by norm_num) a
    have h2 : a * 2 ^ 3 + 1 < 2 ^ 5 := by omega
    rw [h1, lor_pow_add' h2 f,
      show (0xFFFFFFFF : ℕ) = 2 ^ 32 - 1 by norm_num, Nat.and_pow_two_sub_one_eq_mod]
    omega
  rw [uint32store]
  exact_mod_cast hnat

/-- Word 1 of the PDW: high 20 bits of frequency, 12-bit phase. -/
theorem word1_eval (f p : ℕ) (hf : f < 2 ^ 47) (hp : p < 2 ^ 12) :
    uint32store (Int.land (Int.lor ((f : ℤ) / 2 ^ 27) ((p : ℤ) * 2 ^ 20)) 0xFFFFFFFF) =
      (f : ℤ) / 2 ^ 27 + 2 ^ 20 * (p : ℤ) := by
  have hnat : ((f / 2 ^ 27 ||| p * 2 ^ 20) &&& 0xFFFFFFFF) % 4294967296 =
      f / 2 ^ 27 + 2 ^ 20 * p := by
    have h2 : f / 2 ^ 27 < 2 ^ 20 := by omega
    rw [lor_pow_add' h2 p,
      show (0xFFFFFFFF : ℕ) = 2 ^ 32 - 1 by norm_num, Nat.and_pow_two_sub_one_eq_mod]
    omega
  rw [uint32store]
  exact_mod_cast hnat

/-- Word 2 of the PDW: low 32 bits of the start time. -/
theorem word2_eval (s : ℕ) :
    uint32store (Int.land (s : ℤ) 0xFFFFFFFF) = (s : ℤ) % 2 ^ 32 := by
  have hnat : (s &&& 0xFFFFFFFF) % 4294967296 = s % 2 ^ 32 := by
    rw [show (0xFFFFFFFF : ℕ) = 2 ^ 32 - 1 by norm_num, Nat.and_pow_two_sub_one_eq_mod]
    omega
  rw [uint32store]
  exact_mod_cast hnat

/-- Word 3 of the PDW: high 32 bits of the start time. -/
theorem word3_eval (s : ℕ) (hs : s < 2 ^ 64) :
    uint32store (Int.land (s : ℤ) 0xFFFFFFFF00000000 / 2 ^ 32) = (s : ℤ) / 2 ^ 32 := by
  have hnat : (s &&& 0xFFFFFFFF00000000) / 2 ^ 32 % 4294967296 = s / 2 ^ 32 := by
    rw [and_high_mask, Nat.mul_div_cancel _ (by norm_num)]
    omega
  rw [uint32store]
  exact_mod_cast hnat

/-- Word 4 of the PDW: power, markers, phase control, RF-off flag. -/
theorem word4_eval (w m pc rf : ℕ) (hw : w < 2 ^ 15) (hm : m < 2 ^ 12)
    (hpc : pc ≤ 1) (hrf : rf ≤ 1) :
    uint32store (Int.lor (Int.lor (Int.lor (w : ℤ) ((m : ℤ) * 2 ^ 15)) ((pc : ℤ) * 2 ^ 27))
        ((rf : ℤ) * 2 ^ 28)) =
      (w : ℤ) + 2 ^ 15 * m + 2 ^ 27 * pc + 2 ^ 28 * rf := by
  have hnat : (w ||| m * 2 ^ 15 ||| pc * 2 ^ 27 ||| rf * 2 ^ 28) % 4294967296 =
      w + 2 ^ 15 * m + 2 ^ 27 * pc + 2 ^ 28 * rf := by
    rw [lor_pow_add' hw m, lor_pow_add' (by omega) pc, lor_pow_add' (by omega) rf]
    omega
  rw [uint32store]
  exact_mod_cast hnat

/-- Word 5 of the PDW: waveform index, reserved bits, marker mask. -/
theorem word5_eval (wi mk : ℕ) (hwi : wi < 2 ^ 16) (hmk : mk < 2 ^ 4) :
    uint32store (Int.lor (Int.lor (wi : ℤ) (0 * 2 ^ 16)) ((mk : ℤ) * 2 ^ 28)) =
      (wi : ℤ) + 2 ^ 28 * mk := by
  have hz : (0 * 2 ^ 16 : ℤ) = ((0 : ℕ) : ℤ) := by norm_num
  rw [hz]
  have hnat : ((wi ||| 0) ||| mk * 2 ^ 28) % 4294967296 = wi + 2 ^ 28 * mk := by
    rw [Nat.or_zero, lor_pow_add' (by omega) mk]
    omega
  rw [uint32store]
  exact_mod_cast hnat

/-- Length of a `to_bytes` result. -/
theorem toBytesLE_length (n v : ℕ) : (toBytesLE n v).length = n := by
  simp [toBytesLE]

/-- C1: for every non-empty descriptor list, the file built by
`bin_pdw_file_builder` consists of a fixed 4096-byte preamble (header,
padding block, PDW-block header) followed immediately by the encoded
records, so the first PDW record starts at byte offset exactly 4096,
regardless of how many descriptors follow. -/
theorem pdw_file_first_record_at_4096 :
    (pdwFileHeader ++ pdwFilePadding ++ pdwFileBlockHeader).length = 4096 ∧
    ∀ (p : PulseDescriptor) (t : List PulseDescriptor),
      bin_pdw_file_builder (p :: t) =
        (pdwFileHeader ++ pdwFilePadding ++ pdwFileBlockHeader) ++
          (pdwBytes p ++ t.flatMap pdwBytes) ∧
      List.drop 4096 (bin_pdw_file_builder (p :: t)) = pdwBytes p ++ t.flatMap pdwBytes := by
  have hlen : (pdwFileHeader ++ pdwFilePadding ++ pdwFileBlockHeader).length = 4096 := by
    simp [pdwFileHeader, pdwFilePadding, pdwFileBlockHeader, toBytesLE_length]
  refine ⟨hlen, fun p t => ?_⟩
  have heq : bin_pdw_file_builder (p :: t) =
      (pdwFileHeader ++ pdwFilePadding ++ pdwFileBlockHeader) ++
        (pdwBytes p ++ t.flatMap pdwBytes) := by
    simp [bin_pdw_file_builder, List.append_assoc]
  exact ⟨heq, by rw [heq, List.drop_left' hlen]⟩

/-- C2 (amended): for a descriptor whose scaled fields fit their bit
widths, `bin_pdw_builder` packs the six words exactly as the claim lays
them out, where frequency, phase and power are scaled by half-up
rounding (`int(x + 0.5)`, equal to `round` on nonnegative inputs, as
the final three conjuncts state) while the start time is scaled by
`int(startTimeSec * 1e12)` — truncation toward zero, not rounding. -/
theorem bin_pdw_builder_layout
    (operation : ℤ) (freq phase startTimeSec power : ℚ)
    (markers phaseControl rfOff wIndex wfmMkrMask : ℤ)
    (hop0 : 0 ≤ operation) (hop : operation < 2 ^ 2)
    (hF0 : 0 ≤ scaledFreq freq) (hF : scaledFreq freq < 2 ^ 47)
    (hP0 : 0 ≤ scaledPhase phase) (hP : scaledPhase phase < 2 ^ 12)
    (hS0 : 0 ≤ scaledStartPs startTimeSec) (hS : scaledStartPs startTimeSec < 2 ^ 64)
    (hW0 : 0 ≤ scaledPower power) (hW : scaledPower power < 2 ^ 15)
    (hm0 : 0 ≤ markers) (hm : markers < 2 ^ 12)
    (hpc0 : 0 ≤ phaseControl) (hpc : phaseControl ≤ 1)
    (hrf0 : 0 ≤ rfOff) (hrf : rfOff ≤ 1)
    (hwi0 : 0 ≤ wIndex) (hwi : wIndex < 2 ^ 16)
    (hmk0 : 0 ≤ wfmMkrMask) (hmk : wfmMkrMask < 2 ^ 4) :
    bin_pdw_builder operation freq phase startTimeSec power
        markers phaseControl rfOff wIndex wfmMkrMask =
      [ 1 + 2 ^ 3 * operation + 2 ^ 5 * (scaledFreq freq % 2 ^ 27),
        scaledFreq freq / 2 ^ 27 + 2 ^ 20 * scaledPhase phase,
        scaledStartPs startTimeSec % 2 ^ 32,
        scaledStartPs startTimeSec / 2 ^ 32,
        scaledPower power + 2 ^ 15 * markers + 2 ^ 27 * phaseControl + 2 ^ 28 * rfOff,
        wIndex + 2 ^ 28 * wfmMkrMask ] ∧
    (0 ≤ freq * 1024 → scaledFreq freq = round (freq * 1024)) ∧
    (0 ≤ phase * 4096 / 360 → scaledPhase phase = round (phase * 4096 / 360)) ∧
    (0 ≤ (power + 140) / (5 / 1000) → scaledPower power = round ((power + 140) / (5 / 1000))) := by
  refine ⟨?_, fun h => pyInt_add_half _ h, fun h => pyInt_add_half _ h,
    fun h => pyInt_add_half _ h⟩
  obtain ⟨a, ha⟩ := Int.eq_ofNat_of_zero_le hop0
  obtain ⟨f, hf⟩ := Int.eq_ofNat_of_zero_le hF0
  obtain ⟨p, hp⟩ := Int.eq_ofNat_of_zero_le hP0
  obtain ⟨s, hs⟩ := Int.eq_ofNat_of_zero_le hS0
  obtain ⟨w, hw⟩ := Int.eq_ofNat_of_zero_le hW0
  obtain ⟨m, hm'⟩ := Int.eq_ofNat_of_zero_le hm0
  obtain ⟨pc, hpc'⟩ := Int.eq_ofNat_of_zero_le hpc0
  obtain ⟨rf, hrf'⟩ := Int.eq_ofNat_of_zero_le hrf0
  obtain ⟨wi, hwi'⟩ := Int.eq_ofNat_of_zero_le hwi0
  obtain ⟨mk, hmk'⟩ := Int.eq_ofNat_of_zero_le hmk0
  rw [bin_pdw_builder, pdwWords, ha, hf, hp, hs, hw, hm', hpc', hrf', hwi', hmk']
  rw [word0_eval a f (by exact_mod_cast ha ▸ hop),
    word1_eval f p (by exact_mod_cast hf ▸ hF) (by exact_mod_cast hp ▸ hP),
    word2_eval s,
    word3_eval s (by exact_mod_cast hs ▸ hS),
    word4_eval w m pc rf (by exact_mod_cast hw ▸ hW) (by exact_mod_cast hm' ▸ hm)
      (by exact_mod_cast hpc' ▸ hpc) (by exact_mod_cast hrf' ▸ hrf),
    word5_eval wi mk (by exact_mod_cast hwi' ▸ hwi) (by exact_mod_cast hmk' ▸ hmk)]

/-- Witness for C2's amended layout theorem: the spec's round-trip
example descriptor `{operation=2, freq=1e9, phase=90, startTime=1e-6,
power=0, markers=1, phaseControl=1, rfOff=0, wIndex=2, wfmMkrMask=3}`. -/
theorem bin_pdw_builder_layout_witness :
    bin_pdw_builder 2 1000000000 90 (1 / 1000000) 0 1 1 0 2 3 =
      [1694498833, 1073749453, 1000000, 0, 134278496, 805306370] := by
  have hF : scaledFreq 1000000000 = 1024000000000 := by
    rw [scaledFreq]
    exact pyInt_of_nonneg (by norm_num) (by norm_num) (by norm_num)
  have hP : scaledPhase 90 = 1024 := by
    rw [scaledPhase]
    exact pyInt_of_nonneg (by norm_num) (by norm_num) (by norm_num)
  have hS : scaledStartPs (1 / 1000000) = 1000000 := by
    rw [scaledStartPs]
    exact pyInt_of_nonneg (by norm_num) (by norm_num) (by norm_num)
  have hW : scaledPower 0 = 28000 := by
    rw [scaledPower]
    exact pyInt_of_nonneg (by norm_num) (by norm_num) (by norm_num)
  have h := (bin_pdw_builder_layout 2 1000000000 90 (1 / 1000000) 0 1 1 0 2 3
    (by norm_num) (by norm_num)
    (by rw [hF]; norm_num) (by rw [hF]; norm_num)
    (by rw [hP]; norm_num) (by rw [hP]; norm_num)
    (by rw [hS]; norm_num) (by rw [hS]; norm_num)
    (by rw [hW]; norm_num) (by rw [hW]; norm_num)
    (by norm_num) (by norm_num) (by norm_num) (by norm_num)
    (by norm_num) (by norm_num) (by norm_num) (by norm_num)
    (by norm_num) (by norm_num)).1
  rw [h, hF, hP, hS, hW]
  decide

/-- Counterexample to C2 as stated: the claim scales the start time by
`round(startTimeSec * 1e12)`, but the code computes
`int(startTimeSec * 1e12)` with no `+ 0.5`.  At
`startTimeSec = 1.5e-12` the exact product is `3/2`: the claim's
formula gives 2, while the code puts 1 into word 2. -/
theorem bin_pdw_builder_round_cex :
    bin_pdw_builder 0 0 0 (3 / 2000000000000) 0 0 0 0 0 0 = [1, 0, 1, 0, 28000, 0] ∧
    round ((3 / 2000000000000 : ℚ) * 1000000000000) = 2 := by
  constructor
  · have h1 : scaledFreq 0 = 0 := by
      rw [scaledFreq]
      exact pyInt_of_nonneg (by norm_num) (by norm_num) (by norm_num)
    have h2 : scaledPhase 0 = 0 := by
      rw [scaledPhase]
      exact pyInt_of_nonneg (by norm_num) (by norm_num) (by norm_num)
    have h3 : scaledStartPs (3 / 2000000000000) = 1 := by
      rw [scaledStartPs]
      exact pyInt_of_nonneg (by norm_num) (by norm_num) (by norm_num)
    have h4 : scaledPower 0 = 28000 := by
      rw [scaledPower]
      exact pyInt_of_nonneg (by norm_num) (by norm_num) (by norm_num)
    rw [bin_pdw_builder, h1, h2, h3, h4]
    decide
  · rw [round_eq]
    norm_num

/-- C3 (amended): PDW encoding never fails.  For every descriptor —
including one whose scaled fields exceed their bit widths —
`bin_pdw_builder` returns a full six-word record, each word already
reduced modulo `2^32`; oversized fields are silently masked/merged into
the words and no exception is raised (the source has no raise path). -/
theorem bin_pdw_builder_never_fails (op : ℤ) (f p t pw : ℚ) (mk pc rf wi mm : ℤ) :
    (bin_pdw_builder op f p t pw mk pc rf wi mm).length = 6 ∧
    ∀ w ∈ bin_pdw_builder op f p t pw mk pc rf wi mm, 0 ≤ w ∧ w < 2 ^ 32 := by
  refine ⟨rfl, ?_⟩
  intro w hw
  rw [bin_pdw_builder, pdwWords] at hw
  simp only [List.mem_cons, List.not_mem_nil, or_false] at hw
  have hbound : ∀ z : ℤ, 0 ≤ uint32store z ∧ uint32store z < 2 ^ 32 := fun z =>
    ⟨Int.emod_nonneg z (by norm_num), Int.emod_lt_of_pos z (by norm_num)⟩
  rcases hw with h | h | h | h | h | h <;> exact h ▸ hbound _

/-- Witness for the C3 amendment at an overflowing descriptor
(`power = 100` dBm scales to 48000 ≥ 2^15). -/
theorem bin_pdw_builder_never_fails_witness :
    (bin_pdw_builder 0 0 0 0 100 0 0 0 0 0).length = 6 ∧
    (0 ≤ (48000 : ℤ) ∧ (48000 : ℤ) < 2 ^ 32) := by
  have hEq : bin_pdw_builder 0 0 0 0 100 0 0 0 0 0 = [1, 0, 0, 0, 48000, 0] := by
    have h1 : scaledFreq 0 = 0 := by
      rw [scaledFreq]
      exact pyInt_of_nonneg (by norm_num) (by norm_num) (by norm_num)
    have h2 : scaledPhase 0 = 0 := by
      rw [scaledPhase]
      exact pyInt_of_nonneg (by norm_num) (by norm_num) (by norm_num)
    have h3 : scaledStartPs 0 = 0 := by
      rw [scaledStartPs]
      exact pyInt_of_nonneg (by norm_num) (by norm_num) (by norm_num)
    have h4 : scaledPower 100 = 48000 := by
      rw [scaledPower]
      exact pyInt_of_nonneg (by norm_num) (by norm_num) (by norm_num)
    rw [bin_pdw_builder, h1, h2, h3, h4]
    decide
  refine ⟨(bin_pdw_builder_never_fails 0 0 0 0 100 0 0 0 0 0).1,
    (bin_pdw_builder_never_fails 0 0 0 0 100 0 0 0 0 0).2 48000 ?_⟩
  rw [hEq]
  decide

/-- Counterexample to C3 as stated: with `power = 100` dBm the scaled
power 48000 does not fit in 15 bits, yet encoding does not fail — a full
record is returned with the oversized value sitting across the
power/marker boundary of word 4. -/
theorem bin_pdw_builder_overflow_cex :
    bin_pdw_builder 0 0 0 0 100 0 0 0 0 0 = [1, 0, 0, 0, 48000, 0] ∧
    2 ^ 15 ≤ (48000 : ℤ) := by
  constructor
  · have h1 : scaledFreq 0 = 0 := by
      rw [scaledFreq]
      exact pyInt_of_nonneg (by norm_num) (by norm_num) (by norm_num)
    have h2 : scaledPhase 0 = 0 := by
      rw [scaledPhase]
      exact pyInt_of_nonneg (by norm_num) (by norm_num) (by norm_num)
    have h3 : scaledStartPs 0 = 0 := by
      rw [scaledStartPs]
      exact pyInt_of_nonneg (by norm_num) (by norm_num) (by norm_num)
    have h4 : scaledPower 100 = 48000 := by
      rw [scaledPower]
      exact pyInt_of_nonneg (by norm_num) (by norm_num) (by norm_num)
    rw [bin_pdw_builder, h1, h2, h3, h4]
    decide
  · norm_num

/-- Resolution lookup for the `wsp` mode, shared by the `check_wfm`
theorems below. -/
theorem check_resolution_wsp (st : M8190AState) (hres : st.res = ['w', 's', 'p']) :
    check_resolution st =
      .ok { st with gran := 64, minLen := 320, binMult := 2047, binShift := 4 } := by
  rw [check_resolution, if_neg (by rw [hres]; decide), if_pos hres]

/-- `M8190A.check_wfm` in `wsp` mode on a valid-length waveform returns
every sample quantized by `quantInt16 2047 4`. -/
theorem wsp_check_wfm (st : M8190AState) (hres : st.res = ['w', 's', 'p'])
    (wfm : List ℚ) (hlen : 320 ≤ wfm.length) (hgran : wfm.length % 64 = 0) :
    M8190A.check_wfm st wfm = .ok (wfm.map (quantInt16 2047 4)) := by
  rw [M8190A.check_wfm, check_resolution_wsp st hres]
  show (match validate_wfm 320 64 wfm.length with
    | PyResult.error e => PyResult.error e
    | PyResult.ok _ => PyResult.ok (wfm.map (quantInt16 2047 4))) = _
  rw [validate_wfm, if_neg (by omega), if_neg (by simp [hgran])]

/-- `M8195A.check_wfm` on a valid-length waveform returns every sample
quantized by `quantInt8 127 0`. -/
theorem m8195a_check_wfm_ok (wfm : List ℚ) (hlen : 256 ≤ wfm.length)
    (hgran : wfm.length % 256 = 0) :
    M8195A.check_wfm wfm = .ok (wfm.map (quantInt8 127 0)) := by
  rw [M8195A.check_wfm, validate_wfm, if_neg (by omega), if_neg (by simp [hgran])]

/-- C4 (amended): on waveforms that pass validation, `check_wfm`
quantizes each sample to `int(binMultiplier * sample)` — truncation
toward zero, not `round` — left-shifted by `bitShift` bits, stored in
the device's native integer width with that width's two's-complement
wraparound (`wrapSigned`), never clamped; with `binMultiplier = 2047`
and `bitShift = 4` (the M8190A `wsp` mode), sample `1.0` quantizes to
`2047 <<< 4` and sample `-1.0` to `(-2047) <<< 4`. -/
theorem check_wfm_truncating_quantization
    (st : M8190AState) (hres : st.res = ['w', 's', 'p'])
    (wfm : List ℚ) (hlen : 320 ≤ wfm.length) (hgran : wfm.length % 64 = 0)
    (wfm8 : List ℚ) (hlen8 : 256 ≤ wfm8.length) (hgran8 : wfm8.length % 256 = 0) :
    M8190A.check_wfm st wfm =
      .ok (wfm.map fun s => wrapSigned 16 (wrapSigned 16 (pyInt (2047 * s)) * 2 ^ 4)) ∧
    M8195A.check_wfm wfm8 =
      .ok (wfm8.map fun s => wrapSigned 8 (wrapSigned 8 (pyInt (127 * s)) * 2 ^ 0)) ∧
    quantInt16 2047 4 1 = 2047 * 2 ^ 4 ∧
    quantInt16 2047 4 (-1) = -2047 * 2 ^ 4 := by
  have hf16 : quantInt16 2047 4 = fun s => wrapSigned 16 (wrapSigned 16 (pyInt (2047 * s)) * 2 ^ 4) := by
    funext s
    rw [quantInt16]
    norm_num
  have hf8 : quantInt8 127 0 = fun s => wrapSigned 8 (wrapSigned 8 (pyInt (127 * s)) * 2 ^ 0) := by
    funext s
    rw [quantInt8]
    norm_num
  refine ⟨by rw [wsp_check_wfm st hres wfm hlen hgran, hf16],
    by rw [m8195a_check_wfm_ok wfm8 hlen8 hgran8, hf8], ?_, ?_⟩
  · rw [quantInt16, show pyInt ((2047 : ℕ) * (1 : ℚ)) = 2047 from
      pyInt_of_nonneg (by norm_num) (by norm_num) (by norm_num)]
    norm_num [wrapSigned]
  · rw [quantInt16, show pyInt ((2047 : ℕ) * (-1 : ℚ)) = -2047 from
      pyInt_of_neg (by norm_num) (by norm_num) (by norm_num)]
    norm_num [wrapSigned]

/-- Witness for the C4 amendment at the `wsp` profile with two
all-ones waveforms of the minimum valid lengths. -/
theorem check_wfm_truncating_quantization_witness :
    M8190A.check_wfm ⟨['w', 's', 'p'], 0, 0, 0, 0, none, none⟩ (List.replicate 320 1) =
      .ok ((List.replicate 320 (1 : ℚ)).map fun s =>
        wrapSigned 16 (wrapSigned 16 (pyInt (2047 * s)) * 2 ^ 4)) ∧
    M8195A.check_wfm (List.replicate 256 1) =
      .ok ((List.replicate 256 (1 : ℚ)).map fun s =>
        wrapSigned 8 (wrapSigned 8 (pyInt (127 * s)) * 2 ^ 0)) ∧
    quantInt16 2047 4 1 = 2047 * 2 ^ 4 ∧
    quantInt16 2047 4 (-1) = -2047 * 2 ^ 4 :=
  check_wfm_truncating_quantization ⟨['w', 's', 'p'], 0, 0, 0, 0, none, none⟩ rfl
    (List.replicate 320 1) (by simp) (by simp)
    (List.replicate 256 1) (by simp) (by simp)

/-- Counterexample to C4 as stated: the claim quantizes by
`round(binMultiplier * sample)`.  At sample `3/4094` with
`binMultiplier = 2047` the product is exactly `3/2`: the claim's
rounding formula yields `2 <<< 4 = 32`, but the code's float-to-int16
conversion truncates toward zero and stores `1 <<< 4 = 16`. -/
theorem check_wfm_round_cex :
    M8190A.check_wfm ⟨['w', 's', 'p'], 0, 0, 0, 0, none, none⟩
        (List.replicate 320 (3 / 4094)) = .ok (List.replicate 320 16) ∧
    wrapSigned 16 (round ((2047 : ℚ) * (3 / 4094)) * 2 ^ 4) = 32 := by
  constructor
  · rw [wsp_check_wfm _ rfl _ (by simp) (by simp), List.map_replicate,
      show quantInt16 2047 4 (3 / 4094) = 16 by
        rw [quantInt16, show pyInt ((2047 : ℕ) * (3 / 4094 : ℚ)) = 1 from
          pyInt_of_nonneg (by norm_num) (by norm_num) (by norm_num)]
        norm_num [wrapSigned]]
  · rw [show ((2047 : ℚ) * (3 / 4094)) = 3 / 2 by norm_num, round_eq,
      show ⌊(3 / 2 : ℚ) + 1 / 2⌋ = 2 by norm_num]
    norm_num [wrapSigned]

/-- C5: every `check_wfm` validates in a fixed order — the
minimum-length check first (its error carries the actual and the
required length), then the granularity check — and both fail fast, so a
rejected waveform produces an error and never any quantized output,
while an accepted one is quantized in full.  For the device profiles of
the source (`gran ∣ minLen` holds for all of them) length `minLen`
validates, `minLen - 1` fails, `minLen + gran` validates, and
`minLen + 1` fails whenever `gran > 1`. -/
theorem check_wfm_validation_order :
    (∀ minLen gran n, n < minLen →
      validate_wfm minLen gran n = .error (.lengthError n minLen)) ∧
    (∀ minLen gran n, minLen ≤ n → n % gran ≠ 0 →
      validate_wfm minLen gran n = .error (.granularityError gran)) ∧
    (∀ minLen gran, gran ∣ minLen → validate_wfm minLen gran minLen = .ok ()) ∧
    (∀ minLen gran, 0 < minLen →
      validate_wfm minLen gran (minLen - 1) = .error (.lengthError (minLen - 1) minLen)) ∧
    (∀ minLen gran, gran ∣ minLen → validate_wfm minLen gran (minLen + gran) = .ok ()) ∧
    (∀ minLen gran, gran ∣ minLen → 1 < gran →
      validate_wfm minLen gran (minLen + 1) = .error (.granularityError gran)) ∧
    (∀ wfm e, validate_wfm 60 2 wfm.length = .error e → VSG.check_wfm wfm = .error e) ∧
    (∀ wfm out, VSG.check_wfm wfm = .ok out → out.length = wfm.length) ∧
    (∀ st wfm e, st.res = ['w', 's', 'p'] → validate_wfm 320 64 wfm.length = .error e →
      M8190A.check_wfm st wfm = .error e) ∧
    (∀ st wfm out, st.res = ['w', 's', 'p'] → M8190A.check_wfm st wfm = .ok out →
      out.length = wfm.length) := by
  refine ⟨fun minLen gran n h => by rw [validate_wfm, if_pos h],
    fun minLen gran n h1 h2 => by rw [validate_wfm, if_neg (by omega), if_pos h2],
    fun minLen gran hd => ?_, fun minLen gran h => ?_, fun minLen gran hd => ?_,
    fun minLen gran hd hg => ?_, fun wfm e h => ?_, fun wfm out h => ?_,
    fun st wfm e hres h => ?_, fun st wfm out hres h => ?_⟩
  · obtain ⟨c, rfl⟩ := hd
    rw [validate_wfm, if_neg (by omega), if_neg (by simp [Nat.mul_mod_right])]
  · rw [validate_wfm, if_pos (by omega)]
  · obtain ⟨c, rfl⟩ := hd
    rw [validate_wfm, if_neg (by omega),
      if_neg (by simp [show gran * c + gran = gran * (c + 1) by ring, Nat.mul_mod_right])]
  · obtain ⟨c, rfl⟩ := hd
    have hm : (gran * c + 1) % gran = 1 := by
      rw [show gran * c + 1 = 1 + c * gran by ring, Nat.add_mul_mod_self_right]
      exact Nat.mod_eq_of_lt hg
    rw [validate_wfm, if_neg (by omega), if_pos (by rw [hm]; omega)]
  · rw [VSG.check_wfm, h]
  · rw [VSG.check_wfm] at h
    rcases hv : validate_wfm 60 2 wfm.length with _ | e
    · rw [hv] at h
      cases h
      simp
    · rw [hv] at h
      cases h
  · rw [M8190A.check_wfm, check_resolution_wsp st hres]
    show (match validate_wfm 320 64 wfm.length with
      | PyResult.error e => PyResult.error e
      | PyResult.ok _ => PyResult.ok (wfm.map (quantInt16 2047 4))) = _
    rw [h]
  · rw [M8190A.check_wfm, check_resolution_wsp st hres] at h
    revert h
    show (match validate_wfm 320 64 wfm.length with
      | PyResult.error e => PyResult.error e
      | PyResult.ok _ => PyResult.ok (wfm.map (quantInt16 2047 4))) = _ → _
    rcases hv : validate_wfm 320 64 wfm.length with _ | e
    · intro h
      cases h
      simp
    · intro h
      cases h

/-- Witness for C5 at the `wsp` profile numbers
(`minLen = 320`, `gran = 64`). -/
theorem check_wfm_validation_order_witness :
    validate_wfm 320 64 319 = .error (.lengthError 319 320) ∧
    validate_wfm 320 64 320 = .ok () ∧
    validate_wfm 320 64 (320 - 1) = .error (.lengthError (320 - 1) 320) ∧
    validate_wfm 320 64 (320 + 64) = .ok () ∧
    validate_wfm 320 64 (320 + 1) = .error (.granularityError 64) :=
  ⟨check_wfm_validation_order.1 320 64 319 (by norm_num),
    check_wfm_validation_order.2.2.1 320 64 (by norm_num),
    check_wfm_validation_order.2.2.2.1 320 64 (by norm_num),
    check_wfm_validation_order.2.2.2.2.1 320 64 (by norm_num),
    check_wfm_validation_order.2.2.2.2.2.1 320 64 (by norm_num) (by norm_num)⟩

/-- C6 (amended): `check_resolution` handles `wpr` and `wsp` by setting
the four base constants, raises `AwgError` on any mode that is not
`wpr`, `wsp` or an `intx` string, and in an interpolated mode sets
`gran`, `minLen`, `binMult`, `binShift` and `intFactor` for *any*
parsed integer factor, assigning `idleGran` only when the factor is 3,
12, 24 or 48 — an interpolated mode with an unrecognized factor (such
as `intx5`) raises nothing and leaves `idleGran` untouched, so the
update is not atomic and unknown interpolation factors are accepted
silently. -/
theorem check_resolution_behavior :
    (∀ st : M8190AState, st.res = ['w', 'p', 'r'] →
      check_resolution st =
        .ok { st with gran := 48, minLen := 240, binMult := 8191, binShift := 2 }) ∧
    (∀ st : M8190AState, st.res = ['w', 's', 'p'] →
      check_resolution st =
        .ok { st with gran := 64, minLen := 320, binMult := 2047, binShift := 4 }) ∧
    (∀ st : M8190AState, st.res = ['i', 'n', 't', 'x', '3'] →
      check_resolution st =
        .ok { st with gran := 24, minLen := 120, binMult := 16383, binShift := 1,
                      intFactor := some 3, idleGran := some 8 }) ∧
    (∀ st : M8190AState, st.res = ['i', 'n', 't', 'x', '1', '2'] →
      check_resolution st =
        .ok { st with gran := 24, minLen := 120, binMult := 16383, binShift := 1,
                      intFactor := some 12, idleGran := some 2 }) ∧
    (∀ st : M8190AState, st.res = ['i', 'n', 't', 'x', '2', '4'] →
      check_resolution st =
        .ok { st with gran := 24, minLen := 120, binMult := 16383, binShift := 1,
                      intFactor := some 24, idleGran := some 1 }) ∧
    (∀ st : M8190AState, st.res = ['i', 'n', 't', 'x', '4', '8'] →
      check_resolution st =
        .ok { st with gran := 24, minLen := 120, binMult := 16383, binShift := 1,
                      intFactor := some 48, idleGran := some 1 }) ∧
    (∀ st : M8190AState, st.res = ['i', 'n', 't', 'x', '5'] →
      check_resolution st =
        .ok { st with gran := 24, minLen := 120, binMult := 16383, binShift := 1,
                      intFactor := some 5, idleGran := st.idleGran }) ∧
    (∀ st : M8190AState, st.res ≠ ['w', 'p', 'r'] → st.res ≠ ['w', 's', 'p'] →
      strContains ['i', 'n', 't', 'x'] st.res = false →
      check_resolution st = .error .invalidResolution) := by
  refine ⟨fun st h => by rw [check_resolution, if_pos h],
    fun st h => by rw [check_resolution, if_neg (by rw [h]; decide), if_pos h],
    fun st h => ?_, fun st h => ?_, fun st h => ?_, fun st h => ?_, fun st h => ?_,
    fun st h1 h2 h3 => by
      rw [check_resolution, if_neg h1, if_neg h2, if_neg (by rw [h3]; simp)]⟩
  all_goals
    rw [check_resolution, if_neg (by rw [h]; decide), if_neg (by rw [h]; decide),
      if_pos (by rw [h]; decide), h]
  · rw [show parseIntChars ((splitOnChar 'x' ['i', 'n', 't', 'x', '3']).getLastD []) =
      some 3 from by decide]
    norm_num
  · rw [show parseIntChars ((splitOnChar 'x' ['i', 'n', 't', 'x', '1', '2']).getLastD []) =
      some 12 from by decide]
    norm_num
  · rw [show parseIntChars ((splitOnChar 'x' ['i', 'n', 't', 'x', '2', '4']).getLastD []) =
      some 24 from by decide]
    norm_num
  · rw [show parseIntChars ((splitOnChar 'x' ['i', 'n', 't', 'x', '4', '8']).getLastD []) =
      some 48 from by decide]
    norm_num
  · rw [show parseIntChars ((splitOnChar 'x' ['i', 'n', 't', 'x', '5']).getLastD []) =
      some 5 from by decide]
    norm_num

/-- Witness for the C6 amendment at concrete states: `wpr` updates the
base constants, and a non-`intx` unknown mode raises. -/
theorem check_resolution_behavior_witness :
    check_resolution ⟨['w', 'p', 'r'], 0, 0, 0, 0, none, none⟩ =
      .ok ⟨['w', 'p', 'r'], 48, 240, 8191, 2, none, none⟩ ∧
    check_resolution ⟨['f', 'o', 'o'], 0, 0, 0, 0, none, none⟩ =
      .error .invalidResolution :=
  ⟨check_resolution_behavior.1 ⟨['w', 'p', 'r'], 0, 0, 0, 0, none, none⟩ rfl,
    check_resolution_behavior.2.2.2.2.2.2.2 ⟨['f', 'o', 'o'], 0, 0, 0, 0, none, none⟩
      (by decide) (by decide) (by decide)⟩

/-- Counterexample to C6 as stated: the interpolated mode `intx5` has an
interpolation factor that is not one of the recognized values (3, 12,
24, 48), yet `check_resolution` raises nothing: it returns successfully
with `gran`/`minLen`/`binMult`/`binShift`/`intFactor` updated and
`idleGran` left unset — a silent, partially updated constant set. -/
theorem check_resolution_intx5_cex :
    check_resolution ⟨['i', 'n', 't', 'x', '5'], 0, 0, 0, 0, none, none⟩ =
      .ok ⟨['i', 'n', 't', 'x', '5'], 24, 120, 16383, 1, some 5, none⟩ := by
  decide

/-- C7 (amended): `barker_generator` looks the code name up in the
fixed catalog (an unknown name raises), replicates each chip for
`int(duration / codeLength * sampleRate)` samples — the truncating
`int()`, not `round` — and concatenates the chips in code order, where
chip `+1` carries phase `π/2` and chip `-1` carries phase `-π/2` (the
code computes `exp(1j * π/2 * chip)`), not phases 0 and π; nearest
chips of opposite sign still differ in phase by exactly π, and the
2-chip code at `duration = 2e-6`, `sampleRate = 1e6` yields exactly 2
samples whose phases (in units of π: `1/2` and `-1/2`) differ by
exactly π. -/
theorem barker_generator_behavior (length fs : ℚ) :
    (∀ code, pyDictGet barkerCodes code = none →
      barker_generator length fs code = .error .keyError) ∧
    (∀ code chips, pyDictGet barkerCodes code = some chips →
      barker_generator length fs code =
        .ok (chips.flatMap fun p =>
          List.replicate (barkerCodeSamples length fs chips.length) ((1 / 2 : ℚ) * p))) ∧
    (barker_generator (2 / 1000000) 1000000 ['b', '2'] = .ok [1 / 2, -(1 / 2)] ∧
      (1 / 2 : ℚ) - -(1 / 2) = 1) := by
  refine ⟨fun code h => by rw [barker_generator, h],
    fun code chips h => by rw [barker_generator, h], ?_, by norm_num⟩
  rw [barker_generator]
  simp only [pyDictGet, barkerCodes]
  norm_num [barkerCodeSamples, pyInt]

/-- Witness for the C7 amendment: an unknown code name raises. -/
theorem barker_generator_behavior_witness :
    pyDictGet barkerCodes ['b', '9'] = none ∧
    barker_generator 1 1 ['b', '9'] = .error .keyError :=
  ⟨by decide, (barker_generator_behavior 1 1).1 ['b', '9'] (by decide)⟩

/-- Counterexample to C7 as stated: at the spec's own 2-chip example the
first sample's phase is `π/2` (coefficient `1/2`), not 0; and chip
replication truncates — at `duration = 3e-6`, `sampleRate = 1e6` the
per-chip sample count `duration / codeLength * sampleRate` is exactly
`3/2`, so the claim's `round` formula predicts 2 samples per chip
(4 total) while the code produces 1 per chip (2 total). -/
theorem barker_generator_cex :
    barker_generator (2 / 1000000) 1000000 ['b', '2'] = .ok [1 / 2, -(1 / 2)] ∧
    (1 / 2 : ℚ) ≠ 0 ∧
    barker_generator (3 / 1000000) 1000000 ['b', '2'] = .ok [1 / 2, -(1 / 2)] ∧
    round ((3 / 1000000 : ℚ) / 2 * 1000000) = 2 := by
  refine ⟨?_, by norm_num, ?_, ?_⟩
  · rw [barker_generator]
    simp only [pyDictGet, barkerCodes]
    norm_num [barkerCodeSamples, pyInt]
  · rw [barker_generator]
    simp only [pyDictGet, barkerCodes]
    norm_num [barkerCodeSamples, pyInt]
  · rw [show ((3 / 1000000 : ℚ) / 2 * 1000000) = 3 / 2 by norm_num, round_eq]
    norm_num

/-- C8: in the default 16-QAM map, every pair of constellation points at
Euclidean distance 2 on the 4×4 grid (squared distance 4) has bit
patterns differing in exactly one position — the Gray-coding property,
checked exhaustively over all 16 × 16 entry pairs. -/
theorem qam16_gray :
    ∀ e1 ∈ qam16Map, ∀ e2 ∈ qam16Map, sqDist e1.2 e2.2 = 4 → hammingChars e1.1 e2.1 = 1 := by
  intro e1 h1 e2 h2
  fin_cases h1 <;> fin_cases h2 <;> intro h <;>
    first
      | decide
      | (exfalso; revert h; norm_num [sqDist])

/-- Witness for C8 at the nearest-neighbor pair `0000 ↦ -3-3j`,
`0001 ↦ -3-1j`. -/
theorem qam16_gray_witness :
    sqDist ((-3 : ℚ), (-3 : ℚ)) ((-3 : ℚ), (-1 : ℚ)) = 4 ∧
    hammingChars ['0', '0', '0', '0'] ['0', '0', '0', '1'] = 1 :=
  ⟨by norm_num [sqDist],
    qam16_gray (['0', '0', '0', '0'], ((-3 : ℚ), (-3 : ℚ))) (List.mem_cons_self _ _)
      (['0', '0', '0', '1'], ((-3 : ℚ), (-1 : ℚ)))
      (List.mem_cons_of_mem _ (List.mem_cons_self _ _))
      (by norm_num [sqDist])⟩

/-- C9: the default map of `qam32_modulator` is a verbatim copy of the
16-QAM map — sixteen entries, every key 4 characters long — so no 5-bit
symbol string can ever be found in it, and the modulator raises its
symbol-mapping error on the very first complete 5-bit group (here at
the all-zero input), contradicting the claim that every 5-bit tuple
maps and no error is raised. -/
theorem qam32_default_map_is_16qam :
    qam32_modulator [0, 0, 0, 0, 0] = .error .valueError ∧
    qam32Map.length = 16 ∧
    (qam32Map.map fun e => e.1.length) = List.replicate 16 4 :=
  ⟨by decide, rfl, by decide⟩

/-- The number of complete groups equals `⌊n / k⌋`. -/
theorem chunksN_length {α : Type} (k : ℕ) (l : List α) :
    (chunksN k l).length = l.length / k := by
  simp [chunksN]

/-- Every complete group has exactly `k` elements, all drawn from the
input list. -/
theorem chunksN_mem {α : Type} {k : ℕ} {l g : List α} (hg : g ∈ chunksN k l) :
    g.length = k ∧ ∀ x ∈ g, x ∈ l := by
  rw [chunksN] at hg
  simp only [List.mem_map, List.mem_range] at hg
  obtain ⟨i, hi, rfl⟩ := hg
  have hik : (i + 1) * k ≤ l.length :=
    le_trans (Nat.mul_le_mul_right k hi) (Nat.div_mul_le_self _ _)
  rw [Nat.succ_mul] at hik
  constructor
  · rw [List.length_take, List.length_drop]
    omega
  · intro x hx
    exact List.mem_of_mem_drop (List.mem_of_mem_take hx)

/-- If every group is in the map's domain, `mapSymbols` succeeds and
returns one point per group. -/
theorem mapSymbols_ok (m : List (List Char × (ℚ × ℚ))) :
    ∀ gs : List (List Char), (∀ g ∈ gs, (pyDictGet m g).isSome) →
      ∃ out, mapSymbols m gs = .ok out ∧ out.length = gs.length := by
  intro gs
  induction gs with
  | nil => exact fun _ => ⟨[], rfl, rfl⟩
  | cons g t ih =>
    intro h
    obtain ⟨v, hv⟩ := Option.isSome_iff_exists.mp (h g (List.mem_cons_self g t))
    obtain ⟨out, hout, hlen⟩ := ih fun g' hg' => h g' (List.mem_cons_of_mem _ hg')
    refine ⟨v :: out, ?_, by simp [hlen]⟩
    simp only [mapSymbols, hv, hout]

/-- A key absent from every entry of an association list is not found. -/
theorem pyDictGet_eq_none {κ α : Type} [DecidableEq κ] (m : List (κ × α)) (key : κ)
    (h : ∀ e ∈ m, e.1 ≠ key) : pyDictGet m key = none := by
  induction m with
  | nil => rfl
  | cons e t ih =>
    obtain ⟨k, v⟩ := e
    rw [pyDictGet, if_neg (h (k, v) (List.mem_cons_self _ _)), ih]
    exact fun e' he' => h e' (List.mem_cons_of_mem _ he')

/-- Every 2-character 0/1 string is a key of the default QPSK map. -/
theorem qpskMap_covers (g : List Char) (hlen : g.length = 2)
    (hbits : ∀ c ∈ g, c = '0' ∨ c = '1') : (pyDictGet qpskMap g).isSome := by
  match g, hlen with
  | [a, b], _ =>
    rcases hbits a (by simp) with rfl | rfl <;>
      rcases hbits b (by simp) with rfl | rfl <;> decide

/-- Every 3-character 0/1 string is a key of the default 8-PSK map. -/
theorem psk8Map_covers (g : List Char) (hlen : g.length = 3)
    (hbits : ∀ c ∈ g, c = '0' ∨ c = '1') : (pyDictGet psk8Map g).isSome := by
  match g, hlen with
  | [a, b, c], _ =>
    rcases hbits a (by simp) with rfl | rfl <;>
      rcases hbits b (by simp) with rfl | rfl <;>
      rcases hbits c (by simp) with rfl | rfl <;> decide

/-- Every 4-character 0/1 string is a key of the default 16-QAM map. -/
theorem qam16Map_covers (g : List Char) (hlen : g.length = 4)
    (hbits : ∀ c ∈ g, c = '0' ∨ c = '1') : (pyDictGet qam16Map g).isSome := by
  match g, hlen with
  | [a, b, c, d], _ =>
    rcases hbits a (by simp) with rfl | rfl <;>
      rcases hbits b (by simp) with rfl | rfl <;>
      rcases hbits c (by simp) with rfl | rfl <;>
      rcases hbits d (by simp) with rfl | rfl <;> decide

/-- No 5-character string is a key of the default `qam32_modulator`
map — all its keys have 4 characters. -/
theorem qam32Map_misses (g : List Char) (hlen : g.length = 5) :
    pyDictGet qam32Map g = none := by
  refine pyDictGet_eq_none _ _ fun e he => ?_
  have h4 : e.1.length = 4 := by
    fin_cases he <;> rfl
  intro hk
  rw [hk, hlen] at h4
  omega

/-- C10 (amended): on a 0/1 bit list whose length is not (necessarily)
a multiple of the bits-per-symbol, `qpsk_modulator`, `psk8_modulator`
and `qam16_modulator` silently discard the trailing leftover bits and
return exactly `⌊len / bitsPerSymbol⌋` symbols with no error.
`qam32_modulator` groups the same way (so fewer than 5 bits yield the
empty symbol list with no error), but with its default map it raises a
symbol-mapping error as soon as one complete 5-bit group exists,
because that map has only 4-character keys. -/
theorem modulators_drop_leftover_bits (data : List ℤ)
    (hb : ∀ b ∈ data, b = 0 ∨ b = 1) :
    (∃ out, qpsk_modulator data = .ok out ∧ out.length = data.length / 2) ∧
    (∃ out, psk8_modulator data = .ok out ∧ out.length = data.length / 3) ∧
    (∃ out, qam16_modulator data = .ok out ∧ out.length = data.length / 4) ∧
    (data.length < 5 → qam32_modulator data = .ok []) ∧
    (5 ≤ data.length → qam32_modulator data = .error .valueError) := by
  have hchars : ∀ c ∈ data.map bitChar, c = '0' ∨ c = '1' := by
    intro c hc
    rw [List.mem_map] at hc
    obtain ⟨b, hbmem, rfl⟩ := hc
    rcases hb b hbmem with rfl | rfl
    · exact Or.inl rfl
    · exact Or.inr rfl
  have hlen : (data.map bitChar).length = data.length := List.length_map _ _
  refine ⟨?_, ?_, ?_, ?_, ?_⟩
  · obtain ⟨out, hout, hl⟩ := mapSymbols_ok qpskMap (chunksN 2 (data.map bitChar))
      fun g hg => qpskMap_covers g (chunksN_mem hg).1
        fun c hc => hchars c ((chunksN_mem hg).2 c hc)
    exact ⟨out, hout, by rw [hl, chunksN_length, hlen]⟩
  · obtain ⟨out, hout, hl⟩ := mapSymbols_ok psk8Map (chunksN 3 (data.map bitChar))
      fun g hg => psk8Map_covers g (chunksN_mem hg).1
        fun c hc => hchars c ((chunksN_mem hg).2 c hc)
    exact ⟨out, hout, by rw [hl, chunksN_length, hlen]⟩
  · obtain ⟨out, hout, hl⟩ := mapSymbols_ok qam16Map (chunksN 4 (data.map bitChar))
      fun g hg => qam16Map_covers g (chunksN_mem hg).1
        fun c hc => hchars c ((chunksN_mem hg).2 c hc)
    exact ⟨out, hout, by rw [hl, chunksN_length, hlen]⟩
  · intro hsmall
    rw [qam32_modulator, chunksN, hlen, Nat.div_eq_of_lt hsmall]
    rfl
  · intro hbig
    have h5 : data.length / 5 = (data.length / 5 - 1) + 1 := by omega
    rw [qam32_modulator, chunksN, hlen, h5, List.range_succ_eq_map]
    have hnone : pyDictGet qam32Map ((data.map bitChar).drop (0 * 5) |>.take 5) = none := by
      refine qam32Map_misses _ ?_
      rw [List.length_take, List.length_drop, hlen]
      omega
    simp only [List.map_cons, mapSymbols, hnone]

/-- Witness for the C10 amendment on the 6-bit input `[0,1,1,0,1,1]`:
three QPSK symbols, two 8-PSK symbols, one 16-QAM symbol, and a
symbol-mapping error from `qam32_modulator`. -/
theorem modulators_drop_leftover_bits_witness :
    (∃ out, qpsk_modulator [0, 1, 1, 0, 1, 1] = .ok out ∧
      out.length = ([0, 1, 1, 0, 1, 1] : List ℤ).length / 2) ∧
    (∃ out, psk8_modulator [0, 1, 1, 0, 1, 1] = .ok out ∧
      out.length = ([0, 1, 1, 0, 1, 1] : List ℤ).length / 3) ∧
    (∃ out, qam16_modulator [0, 1, 1, 0, 1, 1] = .ok out ∧
      out.length = ([0, 1, 1, 0, 1, 1] : List ℤ).length / 4) ∧
    (([0, 1, 1, 0, 1, 1] : List ℤ).length < 5 → qam32_modulator [0, 1, 1, 0, 1, 1] = .ok []) ∧
    (5 ≤ ([0, 1, 1, 0, 1, 1] : List ℤ).length →
      qam32_modulator [0, 1, 1, 0, 1, 1] = .error .valueError) :=
  modulators_drop_leftover_bits [0, 1, 1, 0, 1, 1] (by decide)

/-- Counterexample to C10 as stated: on the 6-bit all-zero input (6 is
not a multiple of 5, so the claim predicts `⌊6/5⌋ = 1` symbol and no
error) `qam32_modulator` raises its symbol-mapping error instead. -/
theorem qam32_leftover_cex :
    qam32_modulator [0, 0, 0, 0, 0, 0] = .error .valueError ∧
    ([0, 0, 0, 0, 0, 0] : List ℤ).length / 5 = 1 := by
  constructor
  · decide
  · rfl
